import Mathlib

/-!
Shallow embedding of the buddy page-frame allocator in
`src/coursework/buddy.cpp` (class `BuddyPageAllocator`).

Modelling conventions:
* A page descriptor pointer is represented by its index (= PFN, since `init`
  requires the table's first frame number to be 0) in the descriptor table.
  `NULL` pointers become `none : Option Nat`.
* The allocator state is the descriptor table (a function from index to
  descriptor record) together with the table length `_pgds_len` and the
  `_free_areas` array (a function from order to optional head index).
* A C++ `assert` failure, a null-pointer dereference, and the fatal
  "segmentation fault" branches are all modelled as `Except.error`; normal
  completion is `Except.ok`.  Loops are modelled by structural recursion on
  an explicit fuel that dominates the source's iteration count.
-/

namespace BuddyAlloc

/-- The `PageDescriptorType` state tag of a page descriptor. -/
inductive PGDType where
  | INVALID
  | AVAILABLE
  | ALLOCATED
  | RESERVED
deriving DecidableEq, Repr

/-- One `PageDescriptor` record: its state tag and the two intrusive
free-list link fields (`NULL` is `none`). -/
structure PGD where
  type      : PGDType
  prev_free : Option Nat
  next_free : Option Nat
deriving DecidableEq, Repr

/-- The mutable state of `BuddyPageAllocator`: `_pgds_len`, the descriptor
table, and the `_free_areas` array of per-order list heads. -/
structure BuddyState where
  len        : Nat
  pgds       : Nat → PGD
  free_areas : Nat → Option Nat

/-- The `MAX_ORDER` macro. -/
def MAX_ORDER : Nat := 18

/-- The `TWO_POW` macro / `__two_pow` helper: `1ull << order`.  For the
orders that occur (at most `MAX_ORDER + 1`) this is exactly `2 ^ order`. -/
def __two_pow (order : Nat) : Nat := 2 ^ order

/-- The external helper `__log2ceil` from `infos/util/math.h`.
Modelled from the spec: the header itself is not part of this repository's
sources; §9 of the spec describes `free` as recovering an order from the
gap to a bookmarked neighbour pointer, i.e. this function is the ceiling
of the base-2 logarithm (on the power-of-two gaps that occur it returns
the exponent). -/
def __log2ceil (n : Nat) : Nat :=
  if n ≤ 1 then 0 else Nat.log2 (n - 1) + 1

/-- The helper `__aligned_by_order`: the index of the block is a multiple
of `2 ^ order`. -/
def __aligned_by_order (block order : Nat) : Bool :=
  block % __two_pow order == 0

/-- The helper `__prev_block_ptr`: asserts order-alignment, then returns
`block - 2^order`, or `NULL` when that pointer leaves the table (for a
positive index the `__in_ptr_bound` lower bound fails exactly on pointer
underflow, i.e. when `block < 2^order`). -/
def __prev_block_ptr (block len order : Nat) : Except String (Option Nat) :=
  if ¬ __aligned_by_order block order then
    .error "assert failed: __aligned_by_order(block_ptr, base_ptr, order)"
  else if __two_pow order ≤ block ∧ block - __two_pow order < len then
    .ok (some (block - __two_pow order))
  else
    .ok none

/-- The helper `__next_block_ptr`: asserts order-alignment, then returns
`block + 2^order`, or `NULL` when that pointer is at or past the limit of
the table. -/
def __next_block_ptr (block len order : Nat) : Except String (Option Nat) :=
  if ¬ __aligned_by_order block order then
    .error "assert failed: __aligned_by_order(block_ptr, base_ptr, order)"
  else if block + __two_pow order < len then
    .ok (some (block + __two_pow order))
  else
    .ok none

/-- `BuddyPageAllocator::buddy_of`: if the block index shifted right by
`order` is odd the buddy is the previous `2^order` neighbour, otherwise
the next one; `pgd_to_pfn` is the identity on indices because `init`
requires the table to start at PFN 0.  It reads only `st.len` and returns
no state: the function never modifies the allocator. -/
def buddy_of (st : BuddyState) (pgd order : Nat) : Except String (Option Nat) :=
  if (pgd >>> order) % 2 = 1 then
    __prev_block_ptr pgd st.len order
  else
    __next_block_ptr pgd st.len order

/-- Write the state tag of descriptor `i`. -/
def setType (st : BuddyState) (i : Nat) (t : PGDType) : BuddyState :=
  { st with pgds := fun j => if j = i then { st.pgds i with type := t } else st.pgds j }

/-- Write the `prev_free` link of descriptor `i`. -/
def setPrev (st : BuddyState) (i : Nat) (v : Option Nat) : BuddyState :=
  { st with pgds := fun j => if j = i then { st.pgds i with prev_free := v } else st.pgds j }

/-- Write the `next_free` link of descriptor `i`. -/
def setNext (st : BuddyState) (i : Nat) (v : Option Nat) : BuddyState :=
  { st with pgds := fun j => if j = i then { st.pgds i with next_free := v } else st.pgds j }

/-- Write `_free_areas[o]`. -/
def setFreeArea (st : BuddyState) (o : Nat) (v : Option Nat) : BuddyState :=
  { st with free_areas := fun p => if p = o then v else st.free_areas p }

/-- The marking loop of `allocate_pages`: `for (p = base; p < base + n; p++)
p->type = AVAILABLE;`, by recursion on the remaining count `n`. -/
def markRange : BuddyState → Nat → Nat → BuddyState
  | st, _, 0 => st
  | st, base, n + 1 => markRange (setType st base .AVAILABLE) (base + 1) n

/-- A fresh allocator state over `len` descriptors: an empty Free-Area
Index and an untouched (all-`INVALID`, unlinked) descriptor table. -/
def init_state (len : Nat) : BuddyState where
  len := len
  pgds := fun _ => ⟨.INVALID, none, none⟩
  free_areas := fun _ => none

/-- The entry assertion of `split_block`:
`assert(next_free == NULL || next_free - block_ptr >= TWO_POW(source_order))`.
The pointer difference is signed but compared against an `unsigned long
long`, so a negative difference wraps far above `2^source_order` and the
assertion passes; it fails exactly when the successor lies in
`[block, block + 2^source_order)`. -/
def split_entry_assert (st : BuddyState) (block source_order : Nat) : Bool :=
  match (st.pgds block).next_free with
  | none => true
  | some n => decide (n < block) || decide (block + __two_pow source_order ≤ n)

/-- The unlink phase of `split_block`: drop `block` from the head slot if
it is the head, relink its neighbours, and null its own links. -/
def split_unlink (st : BuddyState) (block source_order : Nat) : BuddyState :=
  let st1 := if st.free_areas source_order = some block then
               setFreeArea st source_order ((st.pgds block).next_free)
             else st
  let st2 := match (st1.pgds block).prev_free with
             | some p => setNext st1 p ((st1.pgds block).next_free)
             | none => st1
  let st3 := match (st2.pgds block).next_free with
             | some n => setPrev st2 n ((st2.pgds block).prev_free)
             | none => st2
  setNext (setPrev st3 block none) block none

/-- `BuddyPageAllocator::split_block`.  The C++ takes a
`PageDescriptor **block_pointer`; its body reads `*block_pointer` once, so
the embedding takes that value `block` directly.  Pointer writes are
threaded sequentially through the state; the two fatal branches and the
assertions become `Except.error`.  Returns the left half together with the
new state. -/
def split_block (st : BuddyState) (block source_order : Nat) :
    Except String (Nat × BuddyState) :=
  if ¬ split_entry_assert st block source_order then
    .error "assert failed: next_free == NULL || next_free - block_ptr >= TWO_POW(source_order)"
  else
    -- unlink `block` from the source-order list
    let st4 := split_unlink st block source_order
    -- split in half
    let tgt_order := source_order - 1
    let half_left := block
    match buddy_of st4 half_left tgt_order with
    | .error e => .error e
    | .ok none =>
        -- NULL right half: `__min((uintptr_t)half_left, (uintptr_t)half_right)` is 0
        .error "assert failed: __min(half_left, half_right) == half_left"
    | .ok (some half_right) =>
        if half_right < half_left then
          .error "assert failed: __min(half_left, half_right) == half_left"
        else
          let st5 := setType (setType st4 half_left .AVAILABLE) half_right .AVAILABLE
          let st6 := setPrev (setNext st5 half_left (some half_right)) half_right (some half_left)
          let tgt_alignment := __two_pow tgt_order
          match st6.free_areas tgt_order with
          | none =>
              let st7 := setNext (setPrev st6 half_left none) half_right none
              .ok (half_left, setFreeArea st7 tgt_order (some half_left))
          | some head =>
              if half_right + tgt_alignment ≤ head then
                let st7 := setPrev (setNext (setPrev st6 half_left none) half_right (some head))
                             head (some half_right)
                .ok (half_left, setFreeArea st7 tgt_order (some half_left))
              else if head + tgt_alignment ≤ half_left then
                let st7 := setPrev (setNext (setPrev st6 half_left none) half_right (some head))
                             head (some half_right)
                .ok (half_left, setFreeArea st7 tgt_order (some half_left))
              else
                .error "FATAL: split_block block segmentation fault"

/-- `BuddyPageAllocator::merge_block`.  The returned `Option Nat` models
the returned slot pointer: `none` for `NULL` (merge declined), `some
tgt_order` for `&_free_areas[tgt_order]`.  When `buddy_of` yields `NULL`
the C++ falls through to `buddy_ptr->type`, a null-pointer dereference,
modelled as an error. -/
def merge_block (st : BuddyState) (block source_order : Nat) :
    Except String (BuddyState × Option Nat) :=
  if ¬ source_order < MAX_ORDER then
    .error "assert failed: 0 <= source_order && source_order < MAX_ORDER"
  else
    match buddy_of st block source_order with
    | .error e => .error e
    | .ok buddyOpt =>
        let st0 := setType st block .AVAILABLE
        match buddyOpt with
        | none => .error "null pointer dereference: buddy_ptr->type"
        | some buddy =>
            let src_l := if buddy < block then buddy else block
            let src_r := if buddy < block then block else buddy
            if (st0.pgds buddy).type ≠ .AVAILABLE then
              .ok (st0, none)
            else if ¬ ((st0.pgds src_l).next_free = some src_r ∧
                       (st0.pgds src_r).prev_free = some src_l) then
              .error "assert failed: src_l_block->next_free == src_r_block && src_r_block->prev_free == src_l_block"
            else
              -- unlink both halves; note the head of the source list is
              -- unconditionally replaced by src_r's successor
              let step1 : Except String BuddyState :=
                if st0.free_areas source_order ≠ some src_l then
                  match (st0.pgds src_l).prev_free with
                  | none => .error "null pointer dereference: src_l_block->prev_free->next_free"
                  | some p => .ok (setNext st0 p ((st0.pgds src_r).next_free))
                else .ok st0
              match step1 with
              | .error e => .error e
              | .ok stA =>
                  let stB := match (stA.pgds src_r).next_free with
                             | some n => setPrev stA n ((stA.pgds src_l).prev_free)
                             | none => stA
                  let stC := setFreeArea stB source_order ((stB.pgds src_r).next_free)
                  let stD := setPrev (setNext (setNext (setPrev stC src_l none) src_l none)
                               src_r none) src_r none
                  -- push the merged block (the left half) into the next order;
                  -- the two non-fatal guarded branches have identical bodies
                  let tgt_order := source_order + 1
                  let alignment := __two_pow tgt_order
                  match stD.free_areas tgt_order with
                  | none =>
                      .ok (setFreeArea stD tgt_order (some src_l), some tgt_order)
                  | some head =>
                      if head + alignment ≤ src_l then
                        let stE := setPrev (setNext stD src_l (some head)) head (some src_l)
                        .ok (setFreeArea stE tgt_order (some src_l), some tgt_order)
                      else if src_l + alignment ≤ head then
                        let stE := setPrev (setNext stD src_l (some head)) head (some src_l)
                        .ok (setFreeArea stE tgt_order (some src_l), some tgt_order)
                      else
                        .error "FATAL: merge_block block segmentation fault"

/-- `BuddyPageAllocator::reserve_block`.  Unlinks the block from its
order's list, stores the buddy bookmark in its link fields, and marks it
`RESERVED`.  The source's marking loop iterates `pgd` over the whole block
but its body writes `block_base->type` on every iteration, so only the
first descriptor's state tag is actually written (the loop runs
`2^order ≥ 1` times). -/
def reserve_block (st : BuddyState) (block_base order : Nat) :
    Except String BuddyState :=
  match buddy_of st block_base order with
  | .error e => .error e
  | .ok none => .error "assert failed: __in_ptr_bound(block_buddy, _pgds_base, _pgds_len)"
  | .ok (some buddy) =>
      if buddy = block_base then
        .error "assert failed: block_buddy != block_base"
      else
        let unlinked : Except String BuddyState :=
          if st.free_areas order = some block_base then
            match (st.pgds block_base).prev_free with
            | some _ => .error "assert failed: block_base->prev_free == NULL"
            | none =>
                let st1 := setFreeArea st order ((st.pgds block_base).next_free)
                match (st1.pgds block_base).next_free with
                | some n => .ok (setPrev st1 n none)
                | none => .ok st1
          else
            match (st.pgds block_base).prev_free with
            | none => .error "assert failed: block_base->prev_free != NULL"
            | some p =>
                let st1 := setNext st p ((st.pgds block_base).next_free)
                match (st1.pgds block_base).next_free with
                | some n => .ok (setPrev st1 n ((st1.pgds block_base).prev_free))
                | none => .ok st1
        match unlinked with
        | .error e => .error e
        | .ok st2 =>
            let st3 := if buddy < block_base then
                         setNext (setPrev st2 block_base (some buddy)) block_base none
                       else
                         setNext (setPrev st2 block_base none) block_base (some buddy)
            .ok (setType st3 block_base .RESERVED)

/-- The coalescing loop of `free_pages`:
`for (; pgd_order < order; pgd_order++) if (merge_block(&pgd, pgd_order) == NULL) break;`
by recursion on the remaining iteration count `order - pgd_order`.  The
local `pgd` is passed by address but `merge_block` never writes through
it, so the block argument stays fixed.  Returns the final state together
with the loop counter `pgd_order` it stopped at (the "achieved" order the
source then logs). -/
def merge_loop : Nat → BuddyState → Nat → Nat → Except String (BuddyState × Nat)
  | 0, st, _, cur => .ok (st, cur)
  | k + 1, st, pgd, cur =>
      match merge_block st pgd cur with
      | .error e => .error e
      | .ok (st1, none) => .ok (st1, cur)
      | .ok (st1, some _) => merge_loop k st1 pgd (cur + 1)

/-- `BuddyPageAllocator::free_pages`.  Recovers a "buddy" pointer from the
leftover bookmark in the freed descriptor's link fields, derives
`pgd_order` from the distance to it, pushes the block onto the free list
of that derived order, and then runs the coalescing loop up to the
supplied `order`.  Returns the final state and the achieved order. -/
def free_pages (st : BuddyState) (pgd order : Nat) :
    Except String (BuddyState × Nat) :=
  let buddy_pgd := match (st.pgds pgd).next_free with
                   | none => (st.pgds pgd).prev_free
                   | some n => some n
  match buddy_pgd with
  | none => .error "assert failed: buddy_pgd != NULL"
  | some b =>
      if b = pgd then .error "assert failed: buddy_pgd != pgd"
      else
        let pgd_alignment := if pgd < b then b - pgd else pgd - b
        let pgd_order := __log2ceil pgd_alignment
        let st1 := setType st pgd .AVAILABLE
        let st2 := match st1.free_areas pgd_order with
                   | none =>
                       setFreeArea (setNext (setPrev st1 pgd none) pgd none)
                         pgd_order (some pgd)
                   | some h =>
                       setFreeArea
                         (setPrev (setNext (setPrev st1 pgd none) pgd (some h)) h (some pgd))
                         pgd_order (some pgd)
        merge_loop (order - pgd_order) st2 pgd pgd_order

/-- The scan in `allocate_pages` for the smallest non-empty order in
`[o, MAX_ORDER]`; returns it with its head.  The fuel dominates the at
most `MAX_ORDER + 1` iterations of the source's `for` loop. -/
def find_from_order (st : BuddyState) : Nat → Nat → Option (Nat × Nat)
  | 0, _ => none
  | k + 1, o =>
      if o ≤ MAX_ORDER then
        match st.free_areas o with
        | some h => some (o, h)
        | none => find_from_order st k (o + 1)
      else none

/-- `BuddyPageAllocator::allocate_pages`.  The source ends in the tail
call `return allocate_pages(order)` after a split; the fuel dominates
that recursion depth (at most one split per order).  Returns the new
state and the allocated block (`none` models the `NULL` out-of-memory
return). -/
def allocate_pages_fuel : Nat → BuddyState → Nat → Except String (BuddyState × Option Nat)
  | f, st, order =>
      match st.free_areas order with
      | some allocated =>
          -- mark every page of the block AVAILABLE ("required by kernel")
          let st1 := markRange st allocated (__two_pow order)
          match (st1.pgds allocated).prev_free with
          | some _ => .error "assert failed: allocated->prev_free == NULL"
          | none =>
              let st2 := setFreeArea st1 order ((st1.pgds allocated).next_free)
              let st3 := match st2.free_areas order with
                         | some h => setPrev st2 h none
                         | none => st2
              -- keep a bookmark on the intended buddy
              match buddy_of st3 allocated order with
              | .error e => .error e
              | .ok none => .error "assert failed: __in_ptr_bound(allocated_buddy, _pgds_base, _pgds_len)"
              | .ok (some ab) =>
                  if ab = allocated then
                    .error "assert failed: allocated_buddy != allocated"
                  else
                    let st4 := if ab < allocated then
                                 setNext (setPrev st3 allocated (some ab)) allocated none
                               else
                                 setNext (setPrev st3 allocated none) allocated (some ab)
                    .ok (st4, some allocated)
      | none =>
          match find_from_order st (MAX_ORDER + 1) (order + 1) with
          | none => .ok (st, none)
          | some (fo, head) =>
              match split_block st head fo with
              | .error e => .error e
              | .ok (_, st1) =>
                  match f with
                  | 0 => .error "recursion fuel exhausted"
                  | f1 + 1 => allocate_pages_fuel f1 st1 order

/-- Top-level `allocate_pages` with enough fuel for any real execution
(the split chain descends one order per recursive call). -/
def allocate_pages (st : BuddyState) (order : Nat) :
    Except String (BuddyState × Option Nat) :=
  allocate_pages_fuel (MAX_ORDER + 1) st order

/-- The inner `for` of `insert_page_range`: the first (largest) order from
`MAX_ORDER` downwards whose block is order-aligned at `bound_base` and
fits below `bound_lim`.  The counter `k` runs the candidate order; the
source's `size_t` loop always breaks by order 0 when the range is
non-empty, since a one-page block always fits. -/
def insert_find_order (bound_base bound_lim : Nat) : Nat → Option Nat
  | 0 =>
      if __aligned_by_order bound_base 0 ∧ bound_base + __two_pow 0 ≤ bound_lim then
        some 0
      else none
  | k + 1 =>
      if __aligned_by_order bound_base (k + 1) ∧ bound_base + __two_pow (k + 1) ≤ bound_lim then
        some (k + 1)
      else insert_find_order bound_base bound_lim k

/-- The `while` of `insert_page_range`, with fuel one per inserted block
(each iteration advances `bound_base` by at least one page). -/
def insert_loop : Nat → BuddyState → Nat → Nat → Except String BuddyState
  | 0, st, bound_base, bound_lim =>
      if bound_base = bound_lim then .ok st else .error "insert fuel exhausted"
  | f + 1, st, bound_base, bound_lim =>
      if bound_base = bound_lim then .ok st
      else if ¬ bound_base < bound_lim then .error "assert failed: bound_base < bound_lim"
      else
        match insert_find_order bound_base bound_lim MAX_ORDER with
        | none => .error "unreachable: no order fits"
        | some order =>
            let block_lim := bound_base + __two_pow order
            let st1 := setType st bound_base .AVAILABLE
            let st2 := match st1.free_areas order with
                       | none => setNext (setPrev st1 bound_base none) bound_base none
                       | some h =>
                           setPrev (setNext (setPrev st1 bound_base none) bound_base (some h))
                             h (some bound_base)
            let st3 := setFreeArea st2 order (some bound_base)
            insert_loop f st3 block_lim bound_lim

/-- `BuddyPageAllocator::insert_page_range` over `[start, start + count)`. -/
def insert_page_range (st : BuddyState) (start count : Nat) : Except String BuddyState :=
  insert_loop count st start (start + count)

/-- Outcome of one pass over a free list in `remove_page_range`: the
reservation finished (`done`), the `goto find_block_for_bound` retries
with a new bound (`again`), or the list was exhausted without a related
block (`nomatch`). -/
inductive RemoveStep where
  | done (st : BuddyState)
  | again (st : BuddyState) (bound_base bound_lim : Nat)
  | nomatch

/-- The inner `while (block_base != NULL)` of `remove_page_range`,
walking one order's free list; fuel bounds the pointer chase. -/
def remove_walk (st : BuddyState) (bound_base bound_lim order : Nat) :
    Nat → Option Nat → Except String RemoveStep
  | _, none => .ok .nomatch
  | 0, some _ => .error "list walk fuel exhausted"
  | f + 1, some block_base =>
      let block_lim := block_base + __two_pow order
      if block_base = bound_base ∧ block_lim = bound_lim then
        match reserve_block st block_base order with
        | .error e => .error e
        | .ok st1 => .ok (.done st1)
      else if block_base = bound_base ∧ block_lim < bound_lim then
        match reserve_block st block_base order with
        | .error e => .error e
        | .ok st1 => .ok (.again st1 block_lim bound_lim)
      else if bound_base < block_base ∧ block_lim = bound_lim then
        match reserve_block st block_base order with
        | .error e => .error e
        | .ok st1 => .ok (.again st1 bound_base block_base)
      else if block_base ≤ bound_base ∧ bound_lim ≤ block_lim then
        match split_block st block_base order with
        | .error e => .error e
        | .ok (_, st1) => .ok (.again st1 bound_base bound_lim)
      else
        remove_walk st bound_base bound_lim order f ((st.pgds block_base).next_free)

/-- The `for (size_t order = MAX_ORDER; order >= 0; order--)` of
`remove_page_range`; the counter `k` is `order + 1`.  Because the loop
variable is unsigned, falling past order 0 wraps around and reads
`_free_areas` far out of bounds — modelled as an error. -/
def remove_scan (st : BuddyState) (bound_base bound_lim : Nat) :
    Nat → Except String RemoveStep
  | 0 => .error "undefined behaviour: order-- wraps and _free_areas is read out of bounds"
  | k + 1 =>
      match remove_walk st bound_base bound_lim k (st.len + 1) (st.free_areas k) with
      | .error e => .error e
      | .ok .nomatch => remove_scan st bound_base bound_lim k
      | .ok r => .ok r

/-- The `find_block_for_bound` goto loop of `remove_page_range`. -/
def remove_loop : Nat → BuddyState → Nat → Nat → Except String BuddyState
  | 0, _, _, _ => .error "goto fuel exhausted"
  | f + 1, st, bound_base, bound_lim =>
      match remove_scan st bound_base bound_lim (MAX_ORDER + 1) with
      | .error e => .error e
      | .ok (.done st1) => .ok st1
      | .ok (.again st1 b l) => remove_loop f st1 b l
      | .ok .nomatch => .error "unreachable: remove_scan never returns nomatch"

/-- `BuddyPageAllocator::remove_page_range` over `[start, start + count)`,
with fuel dominating the goto retries (each retry either shrinks the
bound or splits a block, at most `MAX_ORDER` times per bound). -/
def remove_page_range (st : BuddyState) (start count : Nat) : Except String BuddyState :=
  remove_loop (count + 2 * MAX_ORDER + 4) st start (start + count)

/-- The chain of `next_free` links starting from an optional head, cut off
by fuel (`st.len + 1` steps suffice for any acyclic list over the table). -/
def free_list (st : BuddyState) : Nat → Option Nat → List Nat
  | 0, _ => []
  | _, none => []
  | f + 1, some i => i :: free_list st f ((st.pgds i).next_free)

/-- The blocks linked into `_free_areas[o]`'s list. -/
def links_at (st : BuddyState) (o : Nat) : List Nat :=
  free_list st (st.len + 1) (st.free_areas o)

/-- The free-list invariants exactly as claim C6 words them: every linked
block is `AVAILABLE`, order-aligned, lies inside the table, and distinct
blocks linked at one and the same order are disjoint page ranges. -/
def claim_inv (st : BuddyState) : Prop :=
  ∀ o, o ≤ MAX_ORDER → ∀ b1 ∈ links_at st o,
    (st.pgds b1).type = .AVAILABLE ∧
    b1 % __two_pow o = 0 ∧
    b1 + __two_pow o ≤ st.len ∧
    ∀ b2 ∈ links_at st o, b1 ≠ b2 →
      b1 + __two_pow o ≤ b2 ∨ b2 + __two_pow o ≤ b1

instance (st : BuddyState) : Decidable (claim_inv st) := by
  unfold claim_inv
  infer_instance

/-- Value of an `ok` result, or the fallback on `error`. -/
def okOr (d : BuddyState) : Except String BuddyState → BuddyState
  | .ok st => st
  | .error _ => d

/-- The allocator state after `insert_page_range(0, 8)` on a fresh table of
`len` descriptors (the run of `insert_page_range` is independent of `len`,
which it never consults). -/
def insert8_state (len : Nat) : BuddyState :=
  okOr (init_state len) (insert_page_range (init_state len) 0 8)

/-- Concrete state for claim C1: a two-page table in which page 0 is a
free order-0 block and page 1 was handed out by `allocate(0)` (state
`ALLOCATED`, bookmark `prev_free = 0` on its left buddy). -/
def stC1 : BuddyState where
  len := 2
  pgds := fun i => if i = 0 then ⟨.AVAILABLE, none, none⟩ else ⟨.ALLOCATED, some 0, none⟩
  free_areas := fun o => if o = 0 then some 0 else none

/-- Concrete state for claim C2: a four-page table; page 2 was handed out
by `allocate(0)` (bookmark `next_free = 3`), its buddy page 3 is
`RESERVED`, and every free list is empty. -/
def stC2 : BuddyState where
  len := 4
  pgds := fun i =>
    if i = 2 then ⟨.ALLOCATED, none, some 3⟩
    else if i = 3 then ⟨.RESERVED, none, none⟩
    else ⟨.INVALID, none, none⟩
  free_areas := fun _ => none

/-- Concrete state for claim C3: a two-page table with a single free
order-0 block at page 0. -/
def stC3 : BuddyState where
  len := 2
  pgds := fun i => if i = 0 then ⟨.AVAILABLE, none, none⟩ else ⟨.INVALID, none, none⟩
  free_areas := fun o => if o = 0 then some 0 else none

/-- Concrete state for claim C4: a one-page table whose single page is a
free order-0 block; its order-0 buddy would lie past the table limit, so
`buddy_of` returns `NULL` for it. -/
def stC4 : BuddyState where
  len := 1
  pgds := fun _ => ⟨.AVAILABLE, none, none⟩
  free_areas := fun o => if o = 0 then some 0 else none

/-- Concrete state for claim C6: a two-page table where the order-1 block
`[0, 2)` and the order-0 block `[1, 2)` are both linked and `AVAILABLE`.
Blocks linked at any single order are pairwise disjoint (each list is a
singleton), so the invariant exactly as claim C6 states it holds, yet the
order-0 block overlaps the order-1 block. -/
def stC6 : BuddyState where
  len := 2
  pgds := fun _ => ⟨.AVAILABLE, none, none⟩
  free_areas := fun o => if o = 0 then some 1 else if o = 1 then some 0 else none

/-- Concrete state witnessing the amended C6: a four-page table whose only
linked block is the order-1 block `[0, 2)`. -/
def stC6w : BuddyState where
  len := 4
  pgds := fun _ => ⟨.AVAILABLE, none, none⟩
  free_areas := fun o => if o = 1 then some 0 else none

section StateLemmas

@[simp] theorem setType_len (st : BuddyState) (i : Nat) (t : PGDType) :
    (setType st i t).len = st.len := rfl

@[simp] theorem setPrev_len (st : BuddyState) (i : Nat) (v : Option Nat) :
    (setPrev st i v).len = st.len := rfl

@[simp] theorem setNext_len (st : BuddyState) (i : Nat) (v : Option Nat) :
    (setNext st i v).len = st.len := rfl

@[simp] theorem setFreeArea_len (st : BuddyState) (o : Nat) (v : Option Nat) :
    (setFreeArea st o v).len = st.len := rfl

@[simp] theorem setType_free_areas (st : BuddyState) (i : Nat) (t : PGDType) :
    (setType st i t).free_areas = st.free_areas := rfl

@[simp] theorem setPrev_free_areas (st : BuddyState) (i : Nat) (v : Option Nat) :
    (setPrev st i v).free_areas = st.free_areas := rfl

@[simp] theorem setNext_free_areas (st : BuddyState) (i : Nat) (v : Option Nat) :
    (setNext st i v).free_areas = st.free_areas := rfl

@[simp] theorem setFreeArea_pgds (st : BuddyState) (o : Nat) (v : Option Nat) :
    (setFreeArea st o v).pgds = st.pgds := rfl

@[simp] theorem setFreeArea_same (st : BuddyState) (o : Nat) (v : Option Nat) :
    (setFreeArea st o v).free_areas o = v := by
  simp [setFreeArea]

theorem setFreeArea_other (st : BuddyState) (o : Nat) (v : Option Nat)
    (p : Nat) (h : p ≠ o) : (setFreeArea st o v).free_areas p = st.free_areas p := by
  simp [setFreeArea, h]

@[simp] theorem setType_pgds_same (st : BuddyState) (i : Nat) (t : PGDType) :
    (setType st i t).pgds i = { st.pgds i with type := t } := by
  simp [setType]

theorem setType_pgds_other (st : BuddyState) (i : Nat) (t : PGDType)
    (j : Nat) (h : j ≠ i) : (setType st i t).pgds j = st.pgds j := by
  simp [setType, h]

@[simp] theorem setPrev_pgds_same (st : BuddyState) (i : Nat) (v : Option Nat) :
    (setPrev st i v).pgds i = { st.pgds i with prev_free := v } := by
  simp [setPrev]

theorem setPrev_pgds_other (st : BuddyState) (i : Nat) (v : Option Nat)
    (j : Nat) (h : j ≠ i) : (setPrev st i v).pgds j = st.pgds j := by
  simp [setPrev, h]

@[simp] theorem setNext_pgds_same (st : BuddyState) (i : Nat) (v : Option Nat) :
    (setNext st i v).pgds i = { st.pgds i with next_free := v } := by
  simp [setNext]

theorem setNext_pgds_other (st : BuddyState) (i : Nat) (v : Option Nat)
    (j : Nat) (h : j ≠ i) : (setNext st i v).pgds j = st.pgds j := by
  simp [setNext, h]

/-- Writing a descriptor's current state tag back is the identity. -/
theorem setType_self (st : BuddyState) (i : Nat) (t : PGDType)
    (h : (st.pgds i).type = t) : setType st i t = st := by
  have hp : (fun j => if j = i then { st.pgds i with type := t } else st.pgds j) = st.pgds := by
    funext j
    by_cases hj : j = i
    · subst hj; simp [← h]
    · simp [hj]
  calc setType st i t = { st with pgds := st.pgds } := by rw [setType, hp]
    _ = st := rfl

@[simp] theorem markRange_len (st : BuddyState) (base n : Nat) :
    (markRange st base n).len = st.len := by
  induction n generalizing st base with
  | zero => rfl
  | succ n ih => simp [markRange, ih]

@[simp] theorem markRange_free_areas (st : BuddyState) (base n : Nat) :
    (markRange st base n).free_areas = st.free_areas := by
  induction n generalizing st base with
  | zero => rfl
  | succ n ih => simp [markRange, ih]

theorem markRange_prev_free (st : BuddyState) (base n j : Nat) :
    ((markRange st base n).pgds j).prev_free = (st.pgds j).prev_free := by
  induction n generalizing st base with
  | zero => rfl
  | succ n ih =>
      rw [markRange, ih]
      by_cases hj : j = base
      · subst hj; simp
      · rw [setType_pgds_other _ _ _ _ hj]

theorem markRange_next_free (st : BuddyState) (base n j : Nat) :
    ((markRange st base n).pgds j).next_free = (st.pgds j).next_free := by
  induction n generalizing st base with
  | zero => rfl
  | succ n ih =>
      rw [markRange, ih]
      by_cases hj : j = base
      · subst hj; simp
      · rw [setType_pgds_other _ _ _ _ hj]

theorem markRange_type_out (st : BuddyState) (base n j : Nat)
    (h : j < base ∨ base + n ≤ j) :
    ((markRange st base n).pgds j).type = (st.pgds j).type := by
  induction n generalizing st base with
  | zero => rfl
  | succ n ih =>
      rw [markRange, ih _ _ (by omega)]
      rw [setType_pgds_other _ _ _ _ (by omega)]

theorem markRange_type_in (st : BuddyState) (base n j : Nat)
    (h1 : base ≤ j) (h2 : j < base + n) :
    ((markRange st base n).pgds j).type = .AVAILABLE := by
  induction n generalizing st base with
  | zero => omega
  | succ n ih =>
      rw [markRange]
      by_cases hj : j = base
      · subst hj
        rw [markRange_type_out _ _ _ _ (Or.inl (by omega))]
        simp
      · exact ih (setType st base .AVAILABLE) (base + 1) (by omega) (by omega)

end StateLemmas

/-- Oddness of `pgd >>> order` forces `2^order ≤ pgd`. -/
theorem two_pow_le_of_odd_shift (pgd order : Nat)
    (h : (pgd >>> order) % 2 = 1) : __two_pow order ≤ pgd := by
  rw [Nat.shiftRight_eq_div_pow] at h
  by_contra hlt
  push_neg at hlt
  rw [show __two_pow order = 2 ^ order from rfl] at hlt
  rw [Nat.div_eq_of_lt hlt] at h
  simp at h

theorem setPrev_type (st : BuddyState) (i : Nat) (v : Option Nat) (j : Nat) :
    ((setPrev st i v).pgds j).type = (st.pgds j).type := by
  by_cases hj : j = i
  · subst hj; simp
  · rw [setPrev_pgds_other st i v j hj]

theorem setNext_type (st : BuddyState) (i : Nat) (v : Option Nat) (j : Nat) :
    ((setNext st i v).pgds j).type = (st.pgds j).type := by
  by_cases hj : j = i
  · subst hj; simp
  · rw [setNext_pgds_other st i v j hj]

/-- `buddy_of` depends on the state only through the table length. -/
theorem buddy_of_eq_of_len (st st2 : BuddyState) (pgd order : Nat)
    (h : st2.len = st.len) : buddy_of st2 pgd order = buddy_of st pgd order := by
  simp [buddy_of, __prev_block_ptr, __next_block_ptr, h]

/-- A buddy returned by `buddy_of` is never the block itself. -/
theorem buddy_of_ne (st : BuddyState) (pgd order b : Nat)
    (h : buddy_of st pgd order = .ok (some b)) : b ≠ pgd := by
  have hpos : 0 < __two_pow order := Nat.pos_pow_of_pos order (by omega)
  unfold buddy_of __prev_block_ptr __next_block_ptr at h
  split at h
  · split at h
    · simp at h
    · split at h
      · rename_i hcond
        simp only [Except.ok.injEq, Option.some.injEq] at h
        omega
      · simp at h
  · split at h
    · simp at h
    · split at h
      · rename_i hcond
        simp only [Except.ok.injEq, Option.some.injEq] at h
        omega
      · simp at h

theorem split_unlink_len (st : BuddyState) (block so : Nat) :
    (split_unlink st block so).len = st.len := by
  rw [split_unlink]
  simp only [setNext_len, setPrev_len]
  (repeat' split) <;> rfl

theorem split_unlink_free_areas_other (st : BuddyState) (block so p : Nat)
    (hp : p ≠ so) :
    (split_unlink st block so).free_areas p = st.free_areas p := by
  rw [split_unlink]
  simp only [setNext_free_areas, setPrev_free_areas]
  (repeat' split) <;> first | rfl | simp [setFreeArea, hp]

/-- The sum of the two half sizes is the size of the block. -/
theorem two_pow_halves (order : Nat) (h : 1 ≤ order) :
    __two_pow (order - 1) + __two_pow (order - 1) = __two_pow order := by
  obtain ⟨t, rfl⟩ : ∃ t, order = t + 1 := ⟨order - 1, by omega⟩
  simp [__two_pow, pow_succ]
  ring

/-- For an order-aligned block of a positive order that fits inside the
table, `buddy_of` at the next lower order yields the right half. -/
theorem buddy_of_left_half (st : BuddyState) (block order : Nat)
    (hord : 1 ≤ order)
    (halign : block % __two_pow order = 0)
    (hlen : block + __two_pow order ≤ st.len) :
    buddy_of st block (order - 1) = .ok (some (block + __two_pow (order - 1))) := by
  obtain ⟨t, rfl⟩ : ∃ t, order = t + 1 := ⟨order - 1, by omega⟩
  simp only [Nat.add_sub_cancel]
  obtain ⟨m, hm⟩ : 2 ^ (t + 1) ∣ block :=
    Nat.dvd_of_mod_eq_zero (by simpa [__two_pow] using halign)
  have hpos : 0 < (2 : Nat) ^ t := Nat.pos_pow_of_pos t (by omega)
  have hblock : block = 2 ^ t * (2 * m) := by
    rw [hm, pow_succ]
    ring
  have hdiv : block / 2 ^ t = 2 * m := by
    rw [hblock]
    exact Nat.mul_div_cancel_left _ hpos
  have hpar : ¬ (block >>> t) % 2 = 1 := by
    rw [Nat.shiftRight_eq_div_pow, hdiv]
    omega
  have halign2 : __aligned_by_order block t = true := by
    simp only [__aligned_by_order, __two_pow]
    rw [hblock]
    simp [Nat.mul_mod_right]
  have e1 : __two_pow (t + 1) = 2 ^ t * 2 := by
    simp [__two_pow, pow_succ]
  have hbound : block + 2 ^ t < st.len := by omega
  simp [buddy_of, __next_block_ptr, hpar, halign2, hbound, __two_pow]

/-- C7: for every descriptor inside the table that starts an order-aligned
`2^order` block, `buddy_of` returns the previous `2^order` neighbour
(`pgd - 2^order`) when `(PFN >> order)` is odd — oddness forces
`pgd ≥ 2^order`, so that neighbour never leaves the table — and the next
neighbour (`pgd + 2^order`) when it is even, returning `none` exactly when
that computed neighbour falls outside the descriptor table; the function
consumes the state only for the table length and returns no state, so it
reads but never modifies any descriptor or free list. -/
theorem buddy_of_locates (st : BuddyState) (pgd order : Nat)
    (hlen : pgd < st.len) (halign : pgd % __two_pow order = 0) :
    buddy_of st pgd order =
      .ok (if (pgd >>> order) % 2 = 1 then
             some (pgd - __two_pow order)
           else if pgd + __two_pow order < st.len then
             some (pgd + __two_pow order)
           else none) := by
  have ha : __aligned_by_order pgd order = true := by
    simp [__aligned_by_order, halign]
  by_cases hodd : (pgd >>> order) % 2 = 1
  · have h1 : __two_pow order ≤ pgd := two_pow_le_of_odd_shift pgd order hodd
    have h2 : pgd - __two_pow order < st.len := lt_of_le_of_lt (Nat.sub_le _ _) hlen
    simp [buddy_of, __prev_block_ptr, hodd, ha, h1, h2]
  · by_cases hb : pgd + __two_pow order < st.len <;>
      simp [buddy_of, __next_block_ptr, hodd, ha, hb]

/-- Witness for C7 at a concrete input: page 2 at order 1 in a four-page
table has an odd block index, so its buddy is page 0. -/
theorem buddy_of_locates_witness :
    buddy_of (init_state 4) 2 1 =
      .ok (if (2 >>> 1) % 2 = 1 then
             some (2 - __two_pow 1)
           else if 2 + __two_pow 1 < (init_state 4).len then
             some (2 + __two_pow 1)
           else none) :=
  buddy_of_locates (init_state 4) 2 1 (by decide) (by decide)

/-- C9: inserting a zero-length range terminates immediately and returns
the state unchanged — the `while` guard `bound_base != bound_lim` fails on
entry, so every free-list head and every descriptor is exactly as before. -/
theorem insert_page_range_zero (st : BuddyState) (start : Nat) :
    insert_page_range st start 0 = .ok st := by
  simp [insert_page_range, insert_loop]

/-- C10: `free_pages` aborts on its first assertion, without touching the
Free-Area Index, whenever the freed descriptor's `prev_free` and
`next_free` are both `NULL`: the bookmark left by a prior `allocate` is
required. -/
theorem free_pages_requires_bookmark (st : BuddyState) (pgd order : Nat)
    (hp : (st.pgds pgd).prev_free = none) (hn : (st.pgds pgd).next_free = none) :
    free_pages st pgd order = .error "assert failed: buddy_pgd != NULL" := by
  simp [free_pages, hp, hn]

/-- Witness for C10 at a concrete input: freeing page 1 of a fresh
four-page table (both links `NULL`) hits the assertion. -/
theorem free_pages_requires_bookmark_witness :
    free_pages (init_state 4) 1 0 = .error "assert failed: buddy_pgd != NULL" :=
  free_pages_requires_bookmark (init_state 4) 1 0 rfl rfl

/-- Counterexample to C1 as stated: in `stC1`, freeing page 1 with
`order = 0` completes normally at achieved order 0, leaving page 1 at the
head of the order-0 free list while its order-0 buddy — page 0, still
linked right behind it — is `AVAILABLE`: two buddies are simultaneously
free at order `0 < MAX_ORDER` after `free` completes, and no merge was
ever attempted (the order-1 list stays empty). -/
theorem free_pages_unmerged_buddy_cex :
    (free_pages stC1 1 0).map
      (fun p => (p.2, p.1.free_areas 0, p.1.free_areas 1,
                 (p.1.pgds 0).type, (p.1.pgds 1).type)) =
      .ok (0, some 1, none, .AVAILABLE, .AVAILABLE)
    ∧ buddy_of stC1 1 0 = .ok (some 0) :=
  ⟨rfl, rfl⟩

/-- C1 as amended: the coalescing loop inside `free` merges only while the
bookmark-derived current order is below the *supplied* `order` argument
(not `MAX_ORDER`), stopping when a merge is declined; in particular when
the supplied order does not exceed the derived order no merge is ever
attempted — the block is pushed at the derived order and every other
order's free list is left untouched, so a free block and its `Available`
buddy can remain simultaneously free after `free` completes. -/
theorem free_pages_no_merge_when_supplied_le_derived
    (st : BuddyState) (pgd b order : Nat)
    (hn : (st.pgds pgd).next_free = none)
    (hp : (st.pgds pgd).prev_free = some b)
    (hne : b ≠ pgd)
    (hord : order ≤ __log2ceil (if pgd < b then b - pgd else pgd - b)) :
    ∃ st1,
      free_pages st pgd order =
        .ok (st1, __log2ceil (if pgd < b then b - pgd else pgd - b)) ∧
      st1.free_areas (__log2ceil (if pgd < b then b - pgd else pgd - b)) = some pgd ∧
      ∀ o, o ≠ __log2ceil (if pgd < b then b - pgd else pgd - b) →
        st1.free_areas o = st.free_areas o := by
  have hsub : order - __log2ceil (if pgd < b then b - pgd else pgd - b) = 0 :=
    Nat.sub_eq_zero_of_le hord
  simp only [free_pages, hn, hp, hne, if_false, hsub, merge_loop]
  split
  · refine ⟨_, rfl, by simp, fun o ho => ?_⟩
    rw [setFreeArea_other _ _ _ _ ho]
    simp
  · refine ⟨_, rfl, by simp, fun o ho => ?_⟩
    rw [setFreeArea_other _ _ _ _ ho]
    simp

/-- Witness for the amended C1 at a concrete input: freeing page 1 of
`stC1` with supplied order 0 (equal to the derived order) performs no
merge. -/
theorem free_pages_no_merge_when_supplied_le_derived_witness :
    ∃ st1,
      free_pages stC1 1 0 =
        .ok (st1, __log2ceil (if 1 < 0 then 0 - 1 else 1 - 0)) ∧
      st1.free_areas (__log2ceil (if 1 < 0 then 0 - 1 else 1 - 0)) = some 1 ∧
      ∀ o, o ≠ __log2ceil (if 1 < 0 then 0 - 1 else 1 - 0) →
        st1.free_areas o = stC1.free_areas o :=
  free_pages_no_merge_when_supplied_le_derived stC1 1 0 0
    rfl rfl (by decide) (by decide)

/-- Counterexample to C2 as stated: in `stC2`, `free(2, 1)` does not free
the block at the supplied order 1 — it measures the distance to the
leftover bookmark `next_free = 3`, derives order 0 from it, and links
page 2 into the order-0 list; the order-1 list stays empty and the
achieved order is 0. -/
theorem free_pages_supplied_order_cex :
    (free_pages stC2 2 1).map
      (fun p => (p.2, p.1.free_areas 0, p.1.free_areas 1)) =
      .ok (0, some 2, none) :=
  rfl

/-- C2 as amended: `free(block, order)` reconstructs the order at which
the block enters the Free-Area Index by measuring the distance from the
block to the leftover bookmark link (`next_free`, else `prev_free`) left
by `allocate`, taking its ceiling base-2 logarithm; the supplied `order`
argument serves only as the upper bound of the coalescing loop.  When the
supplied order does not exceed the derived one, the block is linked at the
bookmark-derived order, not the supplied one. -/
theorem free_pages_derives_order_from_bookmark
    (st : BuddyState) (pgd b order : Nat)
    (hn : (st.pgds pgd).next_free = some b)
    (hne : b ≠ pgd)
    (hord : order ≤ __log2ceil (if pgd < b then b - pgd else pgd - b)) :
    ∃ st1,
      free_pages st pgd order =
        .ok (st1, __log2ceil (if pgd < b then b - pgd else pgd - b)) ∧
      st1.free_areas (__log2ceil (if pgd < b then b - pgd else pgd - b)) = some pgd := by
  have hsub : order - __log2ceil (if pgd < b then b - pgd else pgd - b) = 0 :=
    Nat.sub_eq_zero_of_le hord
  simp only [free_pages, hn, hne, if_false, hsub, merge_loop]
  split
  · exact ⟨_, rfl, by simp⟩
  · exact ⟨_, rfl, by simp⟩

/-- Witness for the amended C2 at a concrete input: freeing page 2 of
`stC2` with supplied order 0 links it at the bookmark-derived order 0. -/
theorem free_pages_derives_order_from_bookmark_witness :
    ∃ st1,
      free_pages stC2 2 0 =
        .ok (st1, __log2ceil (if 2 < 3 then 3 - 2 else 2 - 3)) ∧
      st1.free_areas (__log2ceil (if 2 < 3 then 3 - 2 else 2 - 3)) = some 2 :=
  free_pages_derives_order_from_bookmark stC2 2 3 0 rfl (by decide) (by decide)

/-- Counterexample to C3 as stated: in `stC3`, `allocate(0)` pops and
returns the head block (page 0) but leaves its descriptor in state
`AVAILABLE`, not `ALLOCATED`. -/
theorem allocate_pages_marks_available_cex :
    (allocate_pages stC3 0).map (fun p => (p.2, (p.1.pgds 0).type)) =
      .ok (some 0, .AVAILABLE) :=
  rfl

/-- Specification of the hit branch of `allocate_pages`: with a head at
the requested order whose `prev_free` is clear and whose buddy exists, the
head is popped and returned, its whole block is marked `AVAILABLE`, the
order's head slot advances to its successor, and no other order's head
slot changes. -/
theorem allocate_pages_head_spec (st : BuddyState) (order h b : Nat)
    (hh : st.free_areas order = some h)
    (hprev : (st.pgds h).prev_free = none)
    (hb : buddy_of st h order = .ok (some b)) :
    ∃ st1,
      allocate_pages st order = .ok (st1, some h) ∧
      (∀ i, i < __two_pow order → (st1.pgds (h + i)).type = .AVAILABLE) ∧
      st1.free_areas order = (st.pgds h).next_free ∧
      ∀ o, o ≠ order → st1.free_areas o = st.free_areas o := by
  have hbne : b ≠ h := buddy_of_ne st h order b hb
  have hprev1 : ((markRange st h (__two_pow order)).pgds h).prev_free = none := by
    rw [markRange_prev_free]; exact hprev
  simp only [allocate_pages, allocate_pages_fuel, hh, hprev1]
  refine ?_
  set stM := markRange st h (__two_pow order) with hstM
  set st2 := setFreeArea stM order ((stM.pgds h).next_free) with hst2
  set st3 := (match st2.free_areas order with
              | some hd => setPrev st2 hd none
              | none => st2) with hst3
  have hlen3 : ∀ st0 : BuddyState,
      (match st0.free_areas order with
        | some hd => setPrev st0 hd none
        | none => st0).len = st0.len := by
    intro st0
    split <;> simp
  have hlen : st3.len = st.len := by
    rw [hst3, hlen3 st2, hst2]
    simp [hstM]
  rw [show buddy_of st3 h order = buddy_of st h order from
        buddy_of_eq_of_len st st3 h order hlen]
  rw [hb]
  dsimp only
  rw [if_neg hbne]
  have htype : ∀ j, j < __two_pow order → (st3.pgds (h + j)).type = .AVAILABLE := by
    intro j hj
    have h2 : (st2.pgds (h + j)).type = .AVAILABLE := by
      rw [hst2]
      simp only [setFreeArea_pgds]
      exact markRange_type_in st h (__two_pow order) (h + j) (by omega) (by omega)
    rw [hst3]
    split
    · rw [setPrev_type]; exact h2
    · exact h2
  have hfa3 : st3.free_areas order = (st.pgds h).next_free := by
    have h2 : st2.free_areas order = (st.pgds h).next_free := by
      rw [hst2, setFreeArea_same, hstM]
      exact markRange_next_free st h (__two_pow order) h
    rw [hst3]
    split <;> simpa using h2
  have hframe : ∀ o, o ≠ order → st3.free_areas o = st.free_areas o := by
    intro o ho
    have h2 : st2.free_areas o = st.free_areas o := by
      rw [hst2, setFreeArea_other _ _ _ _ ho, hstM, markRange_free_areas]
    rw [hst3]
    split <;> simpa using h2
  by_cases hlt : b < h
  · rw [if_pos hlt]
    refine ⟨_, rfl, fun i hi => ?_, ?_, fun o ho => ?_⟩
    · rw [setNext_type, setPrev_type]
      exact htype i hi
    · simpa using hfa3
    · simpa using hframe o ho
  · rw [if_neg hlt]
    refine ⟨_, rfl, fun i hi => ?_, ?_, fun o ho => ?_⟩
    · rw [setNext_type, setPrev_type]
      exact htype i hi
    · simpa using hfa3
    · simpa using hframe o ho

/-- The order scan of `allocate_pages` finds nothing when every order from
its starting point up to `MAX_ORDER` has an empty list. -/
theorem find_from_order_none (st : BuddyState) (k o : Nat)
    (hs : ∀ p, o ≤ p → p ≤ MAX_ORDER → st.free_areas p = none) :
    find_from_order st k o = none := by
  induction k generalizing o with
  | zero => rfl
  | succ k ih =>
      rw [find_from_order]
      by_cases hle : o ≤ MAX_ORDER
      · rw [if_pos hle, hs o (by omega) hle]
        exact ih (o + 1) (fun p hp1 hp2 => hs p (by omega) hp2)
      · rw [if_neg hle]

/-- Out-of-memory branch of `allocate_pages`: when the requested order and
every larger order up to `MAX_ORDER` have empty lists, the allocator
returns `NULL` with the state unchanged. -/
theorem allocate_pages_oom (st : BuddyState) (order : Nat)
    (h0 : st.free_areas order = none)
    (hs : ∀ o, order < o → o ≤ MAX_ORDER → st.free_areas o = none) :
    allocate_pages st order = .ok (st, none) := by
  unfold allocate_pages
  rw [allocate_pages_fuel]
  rw [h0]
  dsimp only
  rw [find_from_order_none st (MAX_ORDER + 1) (order + 1)
        (fun p hp1 hp2 => hs p (by omega) hp2)]

/-- C3 as amended: when `free_head[order]` is non-empty, `allocate(order)`
pops the head block of that order's free list and returns it, but it marks
every descriptor of the returned block with state `Available` — not
`Allocated` (the source deliberately re-marks the whole block `AVAILABLE`
to satisfy a kernel-side assertion) — and stores a bookmark to the block's
buddy in the returned head's link fields. -/
theorem allocate_pages_pops_head (st : BuddyState) (order h b : Nat)
    (hh : st.free_areas order = some h)
    (hprev : (st.pgds h).prev_free = none)
    (hb : buddy_of st h order = .ok (some b)) :
    ∃ st1,
      allocate_pages st order = .ok (st1, some h) ∧
      (∀ i, i < __two_pow order → (st1.pgds (h + i)).type = .AVAILABLE) ∧
      st1.free_areas order = (st.pgds h).next_free := by
  obtain ⟨st1, hA, hT, hF, _⟩ := allocate_pages_head_spec st order h b hh hprev hb
  exact ⟨st1, hA, hT, hF⟩

/-- Witness for the amended C3 at a concrete input: `allocate(0)` on
`stC3` pops page 0, leaves it `AVAILABLE`, and empties the order-0 list. -/
theorem allocate_pages_pops_head_witness :
    ∃ st1,
      allocate_pages stC3 0 = .ok (st1, some 0) ∧
      (∀ i, i < __two_pow 0 → (st1.pgds (0 + i)).type = .AVAILABLE) ∧
      st1.free_areas 0 = (stC3.pgds 0).next_free :=
  allocate_pages_pops_head stC3 0 0 1 rfl rfl rfl

/-- Counterexample to C4 as stated: in `stC4`, page 0 is tracked free at
order 0 and `buddy_of` returns `NULL` for it, yet `merge_block` does not
return `None` with the index unchanged — it dereferences the null buddy
pointer (`buddy_ptr->type`), a fatal crash. -/
theorem merge_block_null_buddy_cex :
    buddy_of stC4 0 0 = .ok none ∧
    merge_block stC4 0 0 = .error "null pointer dereference: buddy_ptr->type" :=
  ⟨rfl, rfl⟩

/-- C4 as amended: `merge_block` returns `None` and leaves the allocator
state unchanged whenever the buddy exists but its state is not
`Available` (given the precondition that the block itself is tracked, i.e.
already `Available`, the source's re-marking of it is the identity); it
merges only when the buddy is present and `Available`.  When `buddy_of`
returns `None`, however, the source does not decline: it dereferences the
null buddy pointer, a fatal crash (see the counterexample). -/
theorem merge_block_declines_unavailable_buddy
    (st : BuddyState) (block order b : Nat)
    (hord : order < MAX_ORDER)
    (hb : buddy_of st block order = .ok (some b))
    (hbt : (st.pgds b).type ≠ .AVAILABLE)
    (hblock : (st.pgds block).type = .AVAILABLE) :
    merge_block st block order = .ok (st, none) := by
  rw [merge_block]
  rw [if_neg (by simpa using hord)]
  rw [hb]
  dsimp only
  rw [setType_self st block .AVAILABLE hblock]
  rw [if_pos hbt]

/-- Witness for the amended C4 at a concrete input: in `stC3` page 0 is a
tracked free order-0 block, its buddy page 1 is `INVALID`, so the merge is
declined and the state is returned unchanged. -/
theorem merge_block_declines_unavailable_buddy_witness :
    merge_block stC3 0 0 = .ok (stC3, none) :=
  merge_block_declines_unavailable_buddy stC3 0 0 1 (by decide) rfl
    (by decide) rfl

/-- C5 evaluated: on an eight-page table of initially `INVALID`
descriptors, `insert_range(0,8)` followed by `remove_range(2,2)` leaves
descriptor 2 `RESERVED` but descriptor 3 still `INVALID` (the marking loop
in `reserve_block` writes `block_base->type` on every iteration instead of
`pgd->type`), and descriptors 1, 5, 6, 7 still `INVALID` (only block-head
descriptors are ever marked `AVAILABLE`) — the claim requires pages 2 and
3 `Reserved` and pages 0, 1, 4, 5, 6, 7 `Available`. -/
theorem remove_page_range_scenario_eval :
    ((insert_page_range (init_state 8) 0 8).bind
        (fun st => remove_page_range st 2 2)).map
      (fun st => (List.range 8).map (fun i => (st.pgds i).type)) =
      .ok [.AVAILABLE, .INVALID, .RESERVED, .INVALID,
           .AVAILABLE, .INVALID, .INVALID, .INVALID] :=
  rfl

/-- Counterexample to C6 as stated: `stC6` satisfies the free-list
invariants exactly as the claim words them (every linked block is
`Available`, order-aligned, and distinct blocks at one order are
disjoint) and `free_head[1]` is non-empty, yet splitting the head of
order 1 reaches the fatal "segmentation fault" branch: the order-0 list
head (page 1) overlaps the block being split, so the new halves neither
lie entirely before nor entirely after it. -/
theorem split_block_fatal_reachable_cex :
    claim_inv stC6 ∧ stC6.free_areas 1 = some 0 ∧
    split_block stC6 0 1 = .error "FATAL: split_block block segmentation fault" :=
  ⟨by decide, rfl, rfl⟩

/-- C6 as amended: `split` on the head of a non-empty order never reaches
its fatal "segmentation fault" branch (nor any other abort) provided the
free-list invariants are strengthened from same-order disjointness to
cross-order disjointness: the head block must be order-aligned and lie in
the table, its successor in its own list must be a disjoint page range,
and any head of the target (next lower) order's list must be disjoint —
as a page range — from the block being split.  The stated same-order-only
disjointness is not enough (see the counterexample). -/
theorem split_block_no_fatal (st : BuddyState) (block order : Nat)
    (hord : 1 ≤ order)
    (hhead : st.free_areas order = some block)
    (halign : block % __two_pow order = 0)
    (hlen : block + __two_pow order ≤ st.len)
    (hnext : ∀ n, (st.pgds block).next_free = some n →
        n + __two_pow order ≤ block ∨ block + __two_pow order ≤ n)
    (htgt : ∀ hd, st.free_areas (order - 1) = some hd →
        hd + __two_pow (order - 1) ≤ block ∨ block + __two_pow order ≤ hd) :
    ∃ st1, split_block st block order = .ok (block, st1) := by
  have hpos : 0 < __two_pow order := Nat.pos_pow_of_pos order (by omega)
  have hassert : split_entry_assert st block order = true := by
    rw [split_entry_assert]
    match hsome : (st.pgds block).next_free with
    | none => rfl
    | some n =>
        rcases hnext n hsome with h | h <;> simp <;> omega
  rw [split_block]
  rw [if_neg (by simp [hassert])]
  dsimp only
  rw [buddy_of_eq_of_len st (split_unlink st block order) block (order - 1)
        (split_unlink_len st block order)]
  rw [buddy_of_left_half st block order hord halign hlen]
  dsimp only
  rw [if_neg (by omega : ¬ block + __two_pow (order - 1) < block)]
  simp only [setPrev_free_areas, setNext_free_areas, setType_free_areas]
  have hfa : (split_unlink st block order).free_areas (order - 1) =
      st.free_areas (order - 1) :=
    split_unlink_free_areas_other st block order (order - 1) (by omega)
  rw [hfa]
  have hsum : __two_pow (order - 1) + __two_pow (order - 1) = __two_pow order :=
    two_pow_halves order hord
  match htgtv : st.free_areas (order - 1) with
  | none => exact ⟨_, rfl⟩
  | some hd =>
      dsimp only
      rcases htgt hd htgtv with hcase | hcase
      · by_cases hfirst : block + __two_pow (order - 1) + __two_pow (order - 1) ≤ hd
        · rw [if_pos hfirst]
          exact ⟨_, rfl⟩
        · rw [if_neg hfirst]
          rw [if_pos hcase]
          exact ⟨_, rfl⟩
      · rw [if_pos (by omega : block + __two_pow (order - 1) + __two_pow (order - 1) ≤ hd)]
        exact ⟨_, rfl⟩

/-- Witness for the amended C6 at a concrete input: splitting the lone
order-1 block of `stC6w` succeeds. -/
theorem split_block_no_fatal_witness :
    ∃ st1, split_block stC6w 0 1 = .ok (0, st1) :=
  split_block_no_fatal stC6w 0 1 (by decide) rfl (by decide) (by decide)
    (fun n hn => by simp [stC6w] at hn) (fun hd hh => by simp [stC6w] at hh)

/-- Counterexample to C8 as stated: on a table of exactly the eight
inserted pages, the first `allocate(3)` does not succeed — the buddy of
the block at PFN 0 lies outside the table, so the bookmark assertion
`__in_ptr_bound(allocated_buddy, ...)` aborts the allocator. -/
theorem allocate_exhaustion_cex :
    (insert_page_range (init_state 8) 0 8).bind (fun st => allocate_pages st 3) =
      .error "assert failed: __in_ptr_bound(allocated_buddy, _pgds_base, _pgds_len)" :=
  rfl

/-- C8 as amended: provided the descriptor table extends strictly past the
inserted range (`8 < len` — otherwise the buddy-bookmark assertion in
`allocate` aborts, see the counterexample), after `insert_range(0, 8)` on
an empty Free-Area Index the first `allocate(3)` succeeds and returns the
block whose first descriptor has PFN 0, and an immediately following
second `allocate(3)` returns the out-of-memory result `NULL`. -/
theorem allocate_exhaustion_amended (len : Nat) (h : 8 < len) :
    ((insert_page_range (init_state len) 0 8).bind
        (fun st => allocate_pages st 3)).map (fun p => p.2) = .ok (some 0) ∧
    ((insert_page_range (init_state len) 0 8).bind
        (fun st => allocate_pages st 3)).bind
      (fun p => (allocate_pages p.1 3).map (fun q => q.2)) = .ok none := by
  have hIns : insert_page_range (init_state len) 0 8 = .ok (insert8_state len) := rfl
  have hlen8 : (insert8_state len).len = len := rfl
  have hfa : ∀ o, (insert8_state len).free_areas o = if o = 3 then some 0 else none :=
    fun _ => rfl
  have hn3 : ((insert8_state len).pgds 0).next_free = none := rfl
  have hb : buddy_of (insert8_state len) 0 3 = .ok (some 8) := by
    simp [buddy_of, __next_block_ptr, __aligned_by_order, __two_pow, hlen8, h]
  obtain ⟨st1, hA, _, hF3, hFr⟩ :=
    allocate_pages_head_spec (insert8_state len) 3 0 8 rfl rfl hb
  have hoom : allocate_pages st1 3 = .ok (st1, none) := by
    refine allocate_pages_oom st1 3 (hF3.trans hn3) (fun o ho1 ho2 => ?_)
    rw [hFr o (by omega), hfa o, if_neg (by omega)]
  constructor
  · rw [hIns]
    simp only [Except.bind]
    rw [hA]
    simp [Except.map]
  · rw [hIns]
    simp only [Except.bind]
    rw [hA]
    simp only [Except.bind]
    rw [hoom]
    simp [Except.map]

/-- Witness for the amended C8 at a concrete input: a sixteen-page table. -/
theorem allocate_exhaustion_amended_witness :
    ((insert_page_range (init_state 16) 0 8).bind
        (fun st => allocate_pages st 3)).map (fun p => p.2) = .ok (some 0) ∧
    ((insert_page_range (init_state 16) 0 8).bind
        (fun st => allocate_pages st 3)).bind
      (fun p => (allocate_pages p.1 3).map (fun q => q.2)) = .ok none :=
  allocate_exhaustion_amended 16 (by decide)

end BuddyAlloc
